import Mathlib

/-!
Shallow embedding of the Autoware multi-object-tracker node
(multi_object_tracker_node.cpp): the transform lookup helper, the node
constructor's input-channel handling, and the cycle orchestration
(onTrigger / onTimer / runProcess / checkAndPublish / publish).
External collaborators (the tf2 buffer, InputManager, TrackerProcessor,
DataAssociation and the uncertainty routines) live in other translation
units; they are modelled as abstract function fields of an environment
record, so the theorems below are about the orchestration code of this
file: which collaborator operations run, in which order, with which
arguments, and how the node-owned state (last published / last updated
time, processor state, published output) changes.
-/

namespace MultiObjectTrackerNode

/-- Time stamps and durations in seconds, embedded as rationals
(rclcpp::Time / rclcpp::Duration). -/
abbrev Time := ℚ

/-- geometry_msgs::msg::Transform: a translation vector and a rotation
quaternion. -/
structure Transform where
  translation_x : ℚ
  translation_y : ℚ
  translation_z : ℚ
  rotation_x : ℚ
  rotation_y : ℚ
  rotation_z : ℚ
  rotation_w : ℚ
deriving DecidableEq

/-- The tf2_ros::Buffer as seen by getTransformAnonymous: canTransform is
the frames-ready check (called by the code at tf2::TimePointZero with zero
timeout, so it takes no time argument here), and lookupTransform either
produces a transform or raises a tf2::TransformException, embedded as
Except with the exception message.  Both take (target frame, source frame)
in that order, as in the C++ call sites. -/
structure TfBuffer where
  canTransform : String → String → Bool
  lookupTransform : String → String → Time → Except String Transform

/-- Embedding of the anonymous-namespace helper getTransformAnonymous
(multi_object_tracker_node.cpp lines 44-66): if the frames are not ready
it returns none; otherwise it looks the transform up, catching any
tf2::TransformException and turning it into none.  Every failure mode is
an ordinary none value; the function is total. -/
def getTransformAnonymous (tf_buffer : TfBuffer) (source_frame_id : String)
    (target_frame_id : String) (time : Time) : Option Transform :=
  if ! tf_buffer.canTransform target_frame_id source_frame_id then
    none
  else
    match tf_buffer.lookupTransform target_frame_id source_frame_id time with
    | Except.ok self_transform_stamped => some self_transform_stamped
    | Except.error _ => none

/-- types::DynamicObjectList: a detection batch with a header stamp, the
index of the source channel, and a payload of detected objects.  The
per-object content is handled only by collaborators, so it is a type
parameter. -/
structure DynamicObjectList (O : Type) where
  stamp : Time
  channel_index : Nat
  objects : List O
deriving DecidableEq

/-- nav_msgs::msg::Odometry, restricted to the fields runProcess writes:
header stamp, pose position and orientation, twist linear x/y and angular
z, and the diagonal covariance entries written (indices 0, 7, 35 of the
pose and twist covariance arrays). -/
structure Odometry where
  stamp : Time
  pos_x : ℚ
  pos_y : ℚ
  pos_z : ℚ
  rot_x : ℚ
  rot_y : ℚ
  rot_z : ℚ
  rot_w : ℚ
  twist_lin_x : ℚ
  twist_lin_y : ℚ
  twist_ang_z : ℚ
  pose_cov_xx : ℚ
  pose_cov_yy : ℚ
  pose_cov_yawyaw : ℚ
  twist_cov_xx : ℚ
  twist_cov_yy : ℚ
  twist_cov_yawyaw : ℚ
deriving DecidableEq

/-- The modeled odometry message built by runProcess (lines 303-329) when
odometry uncertainty is enabled: stamp is the measurement time plus one
millisecond, the pose comes from the base_link-to-world self transform,
and the twist and the covariance diagonals are the hard-coded constants of
the code. -/
def mkOdometry (measurement_time : Time) (self_transform : Transform) : Odometry :=
  { stamp := measurement_time + 1/1000
    pos_x := self_transform.translation_x
    pos_y := self_transform.translation_y
    pos_z := self_transform.translation_z
    rot_x := self_transform.rotation_x
    rot_y := self_transform.rotation_y
    rot_z := self_transform.rotation_z
    rot_w := self_transform.rotation_w
    twist_lin_x := 10
    twist_lin_y := 1/10
    twist_ang_z := 1/10
    pose_cov_xx := 1/10
    pose_cov_yy := 1/10
    pose_cov_yawyaw := 1/10000
    twist_cov_xx := 2
    twist_cov_yy := 1/5
    twist_cov_yawyaw := 1/1000 }

/-- The collaborators and configuration the node functions call into, as
one record.  Type parameters: S the TrackerProcessor state (the Track
population), O the per-object payload, T the result type of
getListTracker, M the score-matrix type, P the output-message type.
Assignments (std::unordered_map from int to int) are embedded as
association lists. -/
structure Env (S O T M P : Type) where
  world_frame_id : String
  tf_buffer : TfBuffer
  transformObjects : DynamicObjectList O → String → Option (DynamicObjectList O)
  enable_odometry_uncertainty : Bool
  addOdometryUncertainty : Odometry → DynamicObjectList O → DynamicObjectList O
  normalizeUncertainty : DynamicObjectList O → DynamicObjectList O
  predict : S → Time → S
  getListTracker : S → T
  calcScoreMatrix : DynamicObjectList O → T → M
  assign : M → List (Int × Int) × List (Int × Int)
  update : S → DynamicObjectList O → Transform → List (Int × Int) → S
  prune : S → Time → S
  spawn : S → DynamicObjectList O → List (Int × Int) → S
  isChannelSpawnEnabled : Nat → Bool
  getObjects : Time → Option (List (DynamicObjectList O))
  has_publish_timer : Bool
  subscription_count : Nat
  intra_process_subscription_count : Nat
  getTrackedObjects : S → Time → P
  publisher_period : ℚ
  minimum_publish_interval_factor : ℚ
  maximum_publish_interval_factor : ℚ

/-- The mutable state the node owns across calls: the two time stamps, the
processor state (the Track population) and the record of messages handed
to the publish sink. -/
structure NodeState (S P : Type) where
  last_published_time : Time
  last_updated_time : Time
  procState : S
  outbox : List P

/-- Trace labels for the Track-population operations a call performs, in
order.  associate covers the score-matrix computation together with the
assignment; publishMsg covers the snapshot query and handing the message
to the sink. -/
inductive Op : Type where
  | predict (t : Time)
  | associate
  | update
  | prune (t : Time)
  | spawn
  | publishMsg (t : Time)
deriving DecidableEq

/-- Embedding of MultiObjectTracker::runProcess (lines 282-366).  Returns
the processor state after the cycle and the trace of Track-population
operations executed.  The two early returns (self transform unavailable,
object transform to the world frame failed) leave the state untouched
with an empty trace. -/
def runProcess {S O T M P : Type} (env : Env S O T M P) (s : S)
    (input_objects : DynamicObjectList O) : S × List Op :=
  let measurement_time := input_objects.stamp
  match getTransformAnonymous env.tf_buffer "base_link" env.world_frame_id measurement_time with
  | none => (s, [])
  | some self_transform =>
    match env.transformObjects input_objects env.world_frame_id with
    | none => (s, [])
    | some transformed_objects =>
      let with_odom :=
        if env.enable_odometry_uncertainty then
          env.addOdometryUncertainty (mkOdometry measurement_time self_transform)
            transformed_objects
        else transformed_objects
      let detections := env.normalizeUncertainty with_odom
      let s_pred := env.predict s measurement_time
      let score_matrix := env.calcScoreMatrix detections (env.getListTracker s_pred)
      let assignments := env.assign score_matrix
      let direct_assignment := assignments.1
      let reverse_assignment := assignments.2
      let s_upd := env.update s_pred detections self_transform direct_assignment
      let s_pruned := env.prune s_upd measurement_time
      if env.isChannelSpawnEnabled input_objects.channel_index then
        (env.spawn s_pruned detections reverse_assignment,
         [Op.predict measurement_time, Op.associate, Op.update,
          Op.prune measurement_time, Op.spawn])
      else
        (s_pruned,
         [Op.predict measurement_time, Op.associate, Op.update,
          Op.prune measurement_time])

/-- Embedding of MultiObjectTracker::publish (lines 380-395).  A const
method: it mutates no node state; it returns the messages handed to the
publish sink.  When the subscriber count (regular plus intra-process) is
below one it returns early and sends nothing; otherwise it queries the
snapshot at the requested time and sends it. -/
def publish {S O T M P : Type} (env : Env S O T M P) (s : S) (time : Time) : List P :=
  let subscriber_count := env.subscription_count + env.intra_process_subscription_count
  if subscriber_count < 1 then []
  else [env.getTrackedObjects s time]

/-- Embedding of MultiObjectTracker::checkAndPublish (lines 368-378):
prune the population at the given time, publish (which may be suppressed
by a lack of subscribers), and set the last published time to the current
clock value (the code re-reads the clock; it is passed in as now). -/
def checkAndPublish {S O T M P : Type} (env : Env S O T M P) (st : NodeState S P)
    (time : Time) (now : Time) : NodeState S P × List Op :=
  let s_pruned := env.prune st.procState time
  let msgs := publish env s_pruned time
  ({ st with
      procState := s_pruned
      outbox := st.outbox ++ msgs
      last_published_time := now },
   [Op.prune time, Op.publishMsg time])

/-- Embedding of MultiObjectTracker::onTimer (lines 259-280).  Returns the
new node state, the trace of operations, and whether checkAndPublish was
invoked on this tick. -/
def onTimer {S O T M P : Type} (env : Env S O T M P) (st : NodeState S P)
    (current_time : Time) : NodeState S P × List Op × Bool :=
  let minimum_publish_interval :=
    env.publisher_period * env.minimum_publish_interval_factor
  let elapsed_time := current_time - st.last_published_time
  if elapsed_time < minimum_publish_interval then (st, [], false)
  else
    let maximum_publish_interval :=
      env.publisher_period * env.maximum_publish_interval_factor
    let should_publish :=
      decide (st.last_published_time < st.last_updated_time) ||
        decide (elapsed_time > maximum_publish_interval)
    if should_publish then
      let r := checkAndPublish env st current_time current_time
      (r.1, r.2, true)
    else (st, [], false)

/-- Placeholder batch used only as the List.getLastD default below.  The
C++ objects_list.back() is reached only when the InputManager returned a
non-empty ready list, so the default is never selected on the paths the
code exercises. -/
def defaultBatch {O : Type} : DynamicObjectList O :=
  { stamp := 0, channel_index := 0, objects := [] }

/-- Embedding of MultiObjectTracker::onTrigger (lines 233-257).  When the
InputManager reports no ready batch it returns at once: the state is
returned unchanged and no operation runs.  Otherwise it advances the last
updated time, runs runProcess for each delivered batch in order, and, when
there is no publish timer (delay compensation disabled), calls
checkAndPublish at the latest object time. -/
def onTrigger {S O T M P : Type} (env : Env S O T M P) (st : NodeState S P)
    (current_time : Time) : NodeState S P × List Op :=
  match env.getObjects current_time with
  | none => (st, [])
  | some objects_list =>
    let st₁ := { st with last_updated_time := current_time }
    let folded := objects_list.foldl
      (fun (acc : S × List Op) objects_data =>
        let r := runProcess env acc.1 objects_data
        (r.1, acc.2 ++ r.2))
      (st₁.procState, [])
    let st₂ := { st₁ with procState := folded.1 }
    if env.has_publish_timer then (st₂, folded.2)
    else
      let latest_object_time := (objects_list.getLastD defaultBatch).stamp
      let r := checkAndPublish env st₂ latest_object_time current_time
      (r.1, folded.2 ++ r.2)

/-- The per-channel parameters the constructor declares for a selected
channel name (lines 113-134).  The optional long and short names are
None when the parameter server supplies no value, in which case the code
defaults them from the channel name. -/
structure ChannelParams where
  topic : String
  can_spawn_new_tracker : Bool
  optional_name : Option String
  optional_short_name : Option String

/-- The input-channel configuration record filled in lines 139-144. -/
structure InputChannel where
  input_topic : String
  long_name : String
  short_name : String
  is_spawn_enabled : Bool
deriving DecidableEq

/-- The constructor inputs that decide the channel handling: the selected
channel list and the per-channel parameter values. -/
structure ConstructorParams where
  selected_input_channels : List String
  channel_params : String → ChannelParams
  enable_delay_compensation : Bool

/-- What the constructor produced: whether the empty-channel error was
logged, whether the processing components (input manager, processor,
association, debugger and the subscriptions) were initialized, whether the
publish timer was created, and the channel configuration. -/
structure InitState where
  error_logged : Bool
  components_initialized : Bool
  publish_timer_created : Bool
  input_channels : List InputChannel
deriving DecidableEq

/-- Embedding of the constructor's channel handling (lines 93-166).  On an
empty selected-channel list it logs an error and returns early: nothing
further is initialized, but construction itself completes normally — the
function is total and no failure is reported to the caller.  Otherwise it
builds the channel configuration (defaulting the optional names from the
channel name and its first three characters) and initializes the
components, creating the publish timer exactly when delay compensation is
enabled. -/
def constructNode (p : ConstructorParams) : InitState :=
  if p.selected_input_channels.isEmpty then
    { error_logged := true
      components_initialized := false
      publish_timer_created := false
      input_channels := [] }
  else
    { error_logged := false
      components_initialized := true
      publish_timer_created := p.enable_delay_compensation
      input_channels := p.selected_input_channels.map (fun c =>
        let cp := p.channel_params c
        { input_topic := cp.topic
          long_name := cp.optional_name.getD c
          short_name := cp.optional_short_name.getD (c.take 3)
          is_spawn_enabled := cp.can_spawn_new_tracker }) }

/-- The cycle tail of runProcess after the fallible transform stage, as a
named expression for stating theorems: predict, associate (score matrix
plus assignment), update with the direct assignment, prune, and the
channel-conditional spawn with the reverse assignment. -/
def cyclePipeline {S O T M P : Type} (env : Env S O T M P) (s : S)
    (measurement_time : Time) (self_transform : Transform)
    (detections : DynamicObjectList O) (channel_index : Nat) : S :=
  let s_pred := env.predict s measurement_time
  let assignments := env.assign (env.calcScoreMatrix detections (env.getListTracker s_pred))
  let s_pruned := env.prune (env.update s_pred detections self_transform assignments.1)
    measurement_time
  if env.isChannelSpawnEnabled channel_index then
    env.spawn s_pruned detections assignments.2
  else s_pruned

/-- Concrete transform used by the witness instances. -/
def exTransform : Transform :=
  { translation_x := 1, translation_y := 2, translation_z := 3
    rotation_x := 0, rotation_y := 0, rotation_z := 0, rotation_w := 1 }

/-- A tf buffer whose lookups succeed. -/
def exBufOk : TfBuffer :=
  { canTransform := fun _ _ => true
    lookupTransform := fun _ _ _ => Except.ok exTransform }

/-- A tf buffer whose frames-ready check fails. -/
def exBufNoFrames : TfBuffer :=
  { canTransform := fun _ _ => false
    lookupTransform := fun _ _ _ => Except.ok exTransform }

/-- A tf buffer whose lookup raises a tf2::TransformException. -/
def exBufRaise : TfBuffer :=
  { canTransform := fun _ _ => true
    lookupTransform := fun _ _ _ => Except.error "transform timeout" }

/-- Concrete detection batch used by the witness instances. -/
def exBatch : DynamicObjectList Unit :=
  { stamp := 2, channel_index := 0, objects := [()] }

/-- Concrete environment for the witnesses: processor state is a Nat, the
collaborator payloads are Unit, and the processor operations move the
state by distinct increments so the executed operations are visible in
the result. -/
def exEnv : Env Nat Unit Unit Unit Unit :=
  { world_frame_id := "map"
    tf_buffer := exBufOk
    transformObjects := fun l _ => some l
    enable_odometry_uncertainty := true
    addOdometryUncertainty := fun _ l => l
    normalizeUncertainty := fun l => l
    predict := fun s _ => s + 1
    getListTracker := fun _ => ()
    calcScoreMatrix := fun _ _ => ()
    assign := fun _ => ([(0, 0)], [])
    update := fun s _ _ _ => s + 3
    prune := fun s _ => s + 5
    spawn := fun s _ _ => s + 7
    isChannelSpawnEnabled := fun _ => true
    getObjects := fun _ => some [exBatch]
    has_publish_timer := true
    subscription_count := 1
    intra_process_subscription_count := 0
    getTrackedObjects := fun _ _ => ()
    publisher_period := 1
    minimum_publish_interval_factor := 1
    maximum_publish_interval_factor := 2 }

/-- Concrete node state for the witnesses: an update has happened after
the last publication. -/
def exState : NodeState Nat Unit :=
  { last_published_time := 0
    last_updated_time := 1
    procState := 0
    outbox := [] }

/-- Claim C9: the transform lookup returns the explicit unavailable value
none exactly in the failure cases — the frames-ready check fails or the
underlying lookup raises a transform exception — and, being a total
function into Option, it never propagates an exception to its caller;
unavailability is an ordinary value. -/
theorem C9_getTransformAnonymous_failure_is_none (buf : TfBuffer)
    (source_frame_id target_frame_id : String) (time : Time) :
    getTransformAnonymous buf source_frame_id target_frame_id time = none ↔
      (buf.canTransform target_frame_id source_frame_id = false ∨
        ∃ e, buf.lookupTransform target_frame_id source_frame_id time = Except.error e) := by
  unfold getTransformAnonymous
  cases h : buf.canTransform target_frame_id source_frame_id with
  | false => simp [h]
  | true =>
    simp only [h, Bool.not_true, Bool.false_eq_true, if_false, Bool.true_eq_false, false_or]
    cases h2 : buf.lookupTransform target_frame_id source_frame_id time with
    | ok v => simp [h2]
    | error e => simp [h2]

/-- Claim C1: when the self-transform lookup is unavailable or the
transform of the objects to the world frame fails, runProcess aborts the
cycle before any Track-population mutation: no predict, update, prune or
spawn runs (empty operation trace) and the processor state after the
cycle is the state before it. -/
theorem C1_transform_failure_aborts_cycle {S O T M P : Type} (env : Env S O T M P)
    (s : S) (input_objects : DynamicObjectList O)
    (h : getTransformAnonymous env.tf_buffer "base_link" env.world_frame_id
          input_objects.stamp = none ∨
         env.transformObjects input_objects env.world_frame_id = none) :
    runProcess env s input_objects = (s, []) := by
  unfold runProcess
  rcases h with h | h
  · simp [h]
  · cases htf : getTransformAnonymous env.tf_buffer "base_link" env.world_frame_id
        input_objects.stamp with
    | none => simp [htf]
    | some tr => simp [htf, h]

/-- Witness for C1: with a tf buffer whose frames-ready check fails, the
cycle leaves the concrete state 0 untouched and runs nothing. -/
theorem C1_transform_failure_aborts_cycle_witness :
    runProcess { exEnv with tf_buffer := exBufNoFrames } 0 exBatch = (0, []) :=
  C1_transform_failure_aborts_cycle { exEnv with tf_buffer := exBufNoFrames } 0 exBatch
    (Or.inl rfl)

/-- Claim C2: when the transform stage succeeds, one processing cycle
executes exactly predict (at the measurement time), associate, update,
prune (at the measurement time) and then spawn exactly when the source
channel allows spawning — in this order, nothing repeated or skipped. -/
theorem C2_cycle_operation_order {S O T M P : Type} (env : Env S O T M P)
    (s : S) (input_objects : DynamicObjectList O) (tr : Transform)
    (tobjs : DynamicObjectList O)
    (h1 : getTransformAnonymous env.tf_buffer "base_link" env.world_frame_id
          input_objects.stamp = some tr)
    (h2 : env.transformObjects input_objects env.world_frame_id = some tobjs) :
    (runProcess env s input_objects).2 =
      [Op.predict input_objects.stamp, Op.associate, Op.update,
       Op.prune input_objects.stamp] ++
        (if env.isChannelSpawnEnabled input_objects.channel_index then [Op.spawn]
         else []) := by
  unfold runProcess
  simp only [h1, h2]
  split <;> simp

/-- Witness for C2: on the concrete spawn-enabled environment the trace is
predict, associate, update, prune, spawn. -/
theorem C2_cycle_operation_order_witness :
    (runProcess exEnv 0 exBatch).2 =
      [Op.predict exBatch.stamp, Op.associate, Op.update, Op.prune exBatch.stamp] ++
        (if exEnv.isChannelSpawnEnabled exBatch.channel_index then [Op.spawn]
         else []) :=
  C2_cycle_operation_order exEnv 0 exBatch exTransform exBatch rfl rfl

/-- Claim C5: for a batch that passes the transform stage, the spawn step
runs if and only if the batch's source channel is spawn-enabled; a batch
from a channel that is not spawn-enabled never reaches the Track-creating
spawn operation. -/
theorem C5_spawn_iff_channel_spawn_enabled {S O T M P : Type} (env : Env S O T M P)
    (s : S) (input_objects : DynamicObjectList O) (tr : Transform)
    (tobjs : DynamicObjectList O)
    (h1 : getTransformAnonymous env.tf_buffer "base_link" env.world_frame_id
          input_objects.stamp = some tr)
    (h2 : env.transformObjects input_objects env.world_frame_id = some tobjs) :
    Op.spawn ∈ (runProcess env s input_objects).2 ↔
      env.isChannelSpawnEnabled input_objects.channel_index = true := by
  unfold runProcess
  simp only [h1, h2]
  split
  next h3 => simp [h3]
  next h3 => simp [h3]

/-- Witness for C5: in the concrete environment channel 0 is
spawn-enabled, and spawn is indeed in the trace. -/
theorem C5_spawn_iff_channel_spawn_enabled_witness :
    Op.spawn ∈ (runProcess exEnv 0 exBatch).2 ↔
      exEnv.isChannelSpawnEnabled exBatch.channel_index = true :=
  C5_spawn_iff_channel_spawn_enabled exEnv 0 exBatch exTransform exBatch rfl rfl

/-- Claim C3: a periodic publish-timer tick invokes publication if and
only if the elapsed time since the last publication is at least the
publisher period times the minimum publish-interval factor, and either a
detection-driven update happened after the last publication or the
elapsed time exceeds the period times the maximum publish-interval
factor.  In particular the tick never publishes earlier than the minimum
interval. -/
theorem C3_onTimer_publishes_iff {S O T M P : Type} (env : Env S O T M P)
    (st : NodeState S P) (current_time : Time) :
    (onTimer env st current_time).2.2 = true ↔
      (env.publisher_period * env.minimum_publish_interval_factor ≤
          current_time - st.last_published_time ∧
        (st.last_published_time < st.last_updated_time ∨
          env.publisher_period * env.maximum_publish_interval_factor <
            current_time - st.last_published_time)) := by
  simp only [onTimer]
  split_ifs with h1 h2
  · constructor
    · intro hfalse; exact hfalse.elim
    · rintro ⟨hmin, -⟩; exact absurd h1 (not_lt.2 hmin)
  · simp only [Bool.or_eq_true, decide_eq_true_eq] at h2
    exact iff_of_true rfl ⟨not_lt.1 h1, h2⟩
  · simp only [Bool.or_eq_true, decide_eq_true_eq] at h2
    push_neg at h2
    constructor
    · intro hfalse; exact hfalse.elim
    · rintro ⟨-, hor⟩
      rcases hor with ha | hb
      · exact absurd ha (not_lt.2 h2.1)
      · exact absurd hb (not_lt.2 h2.2)

/-- Claim C4: when the InputManager reports that no batch is ready, the
detection-driven trigger returns immediately with no state mutation: the
last updated time is untouched, no per-batch processing runs and nothing
is published (empty operation trace, identical state). -/
theorem C4_onTrigger_not_ready_no_mutation {S O T M P : Type} (env : Env S O T M P)
    (st : NodeState S P) (current_time : Time)
    (h : env.getObjects current_time = none) :
    onTrigger env st current_time = (st, []) := by
  unfold onTrigger
  rw [h]

/-- Witness for C4: a concrete environment whose InputManager is never
ready leaves the concrete state untouched. -/
theorem C4_onTrigger_not_ready_no_mutation_witness :
    onTrigger { exEnv with getObjects := fun _ => none } exState 5 = (exState, []) :=
  C4_onTrigger_not_ready_no_mutation { exEnv with getObjects := fun _ => none }
    exState 5 rfl

/-- Claim C6: a publish tick that decides to publish runs exactly prune
at the publish time followed by the snapshot query and publication; it
performs no association, no update and no spawn. -/
theorem C6_publish_tick_runs_only_prune_and_publish {S O T M P : Type}
    (env : Env S O T M P) (st : NodeState S P) (current_time : Time)
    (h : (onTimer env st current_time).2.2 = true) :
    (onTimer env st current_time).2.1 =
        [Op.prune current_time, Op.publishMsg current_time] ∧
      Op.associate ∉ (onTimer env st current_time).2.1 ∧
      Op.update ∉ (onTimer env st current_time).2.1 ∧
      Op.spawn ∉ (onTimer env st current_time).2.1 := by
  have htrace : (onTimer env st current_time).2.1 =
      [Op.prune current_time, Op.publishMsg current_time] := by
    simp only [onTimer] at h ⊢
    split_ifs at h ⊢
    rfl
  refine ⟨htrace, ?_, ?_, ?_⟩ <;> rw [htrace] <;> simp

/-- Witness for C6: on the concrete environment at time 1 the tick
publishes (an update happened after the last publication and the minimum
interval has elapsed), and its trace is prune then publish. -/
theorem C6_publish_tick_runs_only_prune_and_publish_witness :
    (onTimer exEnv exState 1).2.1 = [Op.prune 1, Op.publishMsg 1] ∧
      Op.associate ∉ (onTimer exEnv exState 1).2.1 ∧
      Op.update ∉ (onTimer exEnv exState 1).2.1 ∧
      Op.spawn ∉ (onTimer exEnv exState 1).2.1 :=
  C6_publish_tick_runs_only_prune_and_publish exEnv exState 1
    (by norm_num [onTimer, exEnv, exState])

/-- Claim C7: with odometry-uncertainty consideration enabled and the
transform stage successful, the cycle feeds the detections through
addOdometryUncertainty (then normalizeUncertainty) before the processor
operations, where the odometry argument carries a stamp one millisecond
ahead of the measurement time, the ego pose taken from the self
transform, and the hard-coded ego twist covariance. -/
theorem C7_odometry_uncertainty_applied {S O T M P : Type} (env : Env S O T M P)
    (s : S) (input_objects : DynamicObjectList O) (tr : Transform)
    (tobjs : DynamicObjectList O)
    (hflag : env.enable_odometry_uncertainty = true)
    (h1 : getTransformAnonymous env.tf_buffer "base_link" env.world_frame_id
          input_objects.stamp = some tr)
    (h2 : env.transformObjects input_objects env.world_frame_id = some tobjs) :
    (runProcess env s input_objects).1 =
        cyclePipeline env s input_objects.stamp tr
          (env.normalizeUncertainty
            (env.addOdometryUncertainty (mkOdometry input_objects.stamp tr) tobjs))
          input_objects.channel_index ∧
      (mkOdometry input_objects.stamp tr).stamp = input_objects.stamp + 1/1000 ∧
      (mkOdometry input_objects.stamp tr).pos_x = tr.translation_x ∧
      (mkOdometry input_objects.stamp tr).pos_y = tr.translation_y ∧
      (mkOdometry input_objects.stamp tr).pos_z = tr.translation_z ∧
      (mkOdometry input_objects.stamp tr).rot_x = tr.rotation_x ∧
      (mkOdometry input_objects.stamp tr).rot_y = tr.rotation_y ∧
      (mkOdometry input_objects.stamp tr).rot_z = tr.rotation_z ∧
      (mkOdometry input_objects.stamp tr).rot_w = tr.rotation_w ∧
      (mkOdometry input_objects.stamp tr).twist_cov_xx = 2 ∧
      (mkOdometry input_objects.stamp tr).twist_cov_yy = 1/5 ∧
      (mkOdometry input_objects.stamp tr).twist_cov_yawyaw = 1/1000 := by
  refine ⟨?_, rfl, rfl, rfl, rfl, rfl, rfl, rfl, rfl, rfl, rfl, rfl⟩
  unfold runProcess cyclePipeline
  simp only [h1, h2, hflag, if_true]
  cases h3 : env.isChannelSpawnEnabled input_objects.channel_index <;> simp [h3]

/-- Witness for C7: the concrete environment has the odometry flag on;
the cycle result equals the pipeline applied to the inflated detections
and the modeled odometry carries the documented constants. -/
theorem C7_odometry_uncertainty_applied_witness :
    (runProcess exEnv 0 exBatch).1 =
        cyclePipeline exEnv 0 exBatch.stamp exTransform
          (exEnv.normalizeUncertainty
            (exEnv.addOdometryUncertainty (mkOdometry exBatch.stamp exTransform)
              exBatch))
          exBatch.channel_index ∧
      (mkOdometry exBatch.stamp exTransform).stamp = exBatch.stamp + 1/1000 ∧
      (mkOdometry exBatch.stamp exTransform).pos_x = exTransform.translation_x ∧
      (mkOdometry exBatch.stamp exTransform).pos_y = exTransform.translation_y ∧
      (mkOdometry exBatch.stamp exTransform).pos_z = exTransform.translation_z ∧
      (mkOdometry exBatch.stamp exTransform).rot_x = exTransform.rotation_x ∧
      (mkOdometry exBatch.stamp exTransform).rot_y = exTransform.rotation_y ∧
      (mkOdometry exBatch.stamp exTransform).rot_z = exTransform.rotation_z ∧
      (mkOdometry exBatch.stamp exTransform).rot_w = exTransform.rotation_w ∧
      (mkOdometry exBatch.stamp exTransform).twist_cov_xx = 2 ∧
      (mkOdometry exBatch.stamp exTransform).twist_cov_yy = 1/5 ∧
      (mkOdometry exBatch.stamp exTransform).twist_cov_yawyaw = 1/1000 :=
  C7_odometry_uncertainty_applied exEnv 0 exBatch exTransform exBatch rfl rfl rfl

/-- Claim C10: checkAndPublish at a given time always prunes the Track
population at that time, always advances the last published time, and
when there are zero subscribers nothing is actually sent — the output
suppression inside publish does not suppress the state mutation. -/
theorem C10_checkAndPublish_mutates_without_subscribers {S O T M P : Type}
    (env : Env S O T M P) (st : NodeState S P) (time now : Time)
    (h : env.subscription_count + env.intra_process_subscription_count = 0) :
    (checkAndPublish env st time now).1.procState = env.prune st.procState time ∧
      (checkAndPublish env st time now).1.last_published_time = now ∧
      (checkAndPublish env st time now).1.outbox = st.outbox ∧
      (checkAndPublish env st time now).2 = [Op.prune time, Op.publishMsg time] := by
  refine ⟨rfl, rfl, ?_, rfl⟩
  simp [checkAndPublish, publish, h]

/-- Environment with zero subscribers, for the C10 witness. -/
def exEnvNoSubs : Env Nat Unit Unit Unit Unit :=
  { exEnv with subscription_count := 0, intra_process_subscription_count := 0 }

/-- Witness for C10: with zero subscribers, the state 0 is still pruned
(to 5), the last published time still moves to 4 and the outbox stays
empty. -/
theorem C10_checkAndPublish_mutates_without_subscribers_witness :
    (checkAndPublish exEnvNoSubs exState 3 4).1.procState =
        exEnvNoSubs.prune exState.procState 3 ∧
      (checkAndPublish exEnvNoSubs exState 3 4).1.last_published_time = 4 ∧
      (checkAndPublish exEnvNoSubs exState 3 4).1.outbox = exState.outbox ∧
      (checkAndPublish exEnvNoSubs exState 3 4).2 = [Op.prune 3, Op.publishMsg 3] :=
  C10_checkAndPublish_mutates_without_subscribers exEnvNoSubs exState 3 4 rfl

/-- Per-channel parameters used by the C8 instances. -/
def exChannelParams : String → ChannelParams := fun _ =>
  { topic := "/detections"
    can_spawn_new_tracker := true
    optional_name := none
    optional_short_name := none }

/-- Counterexample for C8 as stated: constructing with an empty
selected-channel list completes normally and yields an ordinary value —
the error is only logged and the components are left uninitialized; no
failure is reported to the caller and construction is not prevented. -/
theorem C8_counterexample_empty_channels_constructs_normally :
    constructNode
      { selected_input_channels := []
        channel_params := exChannelParams
        enable_delay_compensation := true } =
      { error_logged := true
        components_initialized := false
        publish_timer_created := false
        input_channels := [] } := rfl

/-- Claim C8 as amended: on an empty channel list the constructor logs
the error and returns early — no processing components are initialized,
no publish timer is created and no channels are registered, so the
tracker can never process anything — but construction itself completes
normally: the error is logged rather than reported to the caller, and the
node object is created in an inert state. -/
theorem C8_empty_channel_list_logs_and_leaves_node_inert
    (p : ConstructorParams) (h : p.selected_input_channels = []) :
    constructNode p =
      { error_logged := true
        components_initialized := false
        publish_timer_created := false
        input_channels := [] } := by
  simp [constructNode, h]

/-- Witness for the amended C8 at a concrete parameter set. -/
theorem C8_empty_channel_list_logs_and_leaves_node_inert_witness :
    constructNode
      { selected_input_channels := []
        channel_params := exChannelParams
        enable_delay_compensation := false } =
      { error_logged := true
        components_initialized := false
        publish_timer_created := false
        input_channels := [] } :=
  C8_empty_channel_list_logs_and_leaves_node_inert
    { selected_input_channels := []
      channel_params := exChannelParams
      enable_delay_compensation := false } rfl

end MultiObjectTrackerNode
